import Mathlib

/-!
Verification of the catalog crawler of `books_scraping_api`
(`src/application/scraper.py`, class `RunScraper`, and the legacy
standalone script `scripts/scraper.py`).

The Python code is shallowly embedded: each `soup.find(...)` query is a
field of a `Soup` structure (`none` = node absent), Python exceptions are
an explicit `PyExc` type threaded through `Except`, the `requests.get`
transport is a function `String → Option Soup` (`none` = a
`requests.exceptions.RequestException`), and the `while current_url:`
loop is fuel-indexed recursion returning `none` when fuel runs out.
Text primitives (strip, replace, split, float parsing, the availability
regular expression, `urljoin`) are modelled structurally over `List Char`
so that every definition evaluates by kernel reduction.
-/

deriving instance DecidableEq for Except

namespace Books

/-- Python exception classes that the scraper code can raise or catch.
`requestException` stands for `requests.exceptions.RequestException`. -/
inductive PyExc where
  | attributeError
  | keyError
  | valueError
  | indexError
  | typeError
  | requestException
deriving DecidableEq, Repr

/-! ## Text helpers modelled from Python builtins -/

/-- `str.strip()`: drop whitespace from both ends. -/
def trimChars (cs : List Char) : List Char :=
  ((cs.dropWhile Char.isWhitespace).reverse.dropWhile Char.isWhitespace).reverse

/-- Does the second list begin with the first (the pattern)? -/
def startsWithChars : List Char → List Char → Bool
  | [], _ => true
  | _ :: _, [] => false
  | a :: as, b :: bs => a = b && startsWithChars as bs

/-- Join character-list words with a single separator character. -/
def joinWith (sep : Char) : List (List Char) → List Char
  | [] => []
  | [w] => w
  | w :: rest => w ++ sep :: joinWith sep rest

/-- Split at every occurrence of `sep`, keeping empty pieces
(the semantics of `str.split(sep)` with an explicit separator). -/
def splitSepAux (sep : Char) : List Char → List Char → List (List Char)
  | [], cur => [cur.reverse]
  | c :: rest, cur =>
    if c = sep then cur.reverse :: splitSepAux sep rest []
    else splitSepAux sep rest (c :: cur)

/-- `str.split()` with no argument: whitespace-separated words, empty
pieces dropped. -/
def splitWsAux : List Char → List Char → List (List Char)
  | [], cur => if cur = [] then [] else [cur.reverse]
  | c :: rest, cur =>
    if c.isWhitespace then
      if cur = [] then splitWsAux rest []
      else cur.reverse :: splitWsAux rest []
    else splitWsAux rest (c :: cur)

/-- `" ".join(s.split())` — collapse whitespace runs to single spaces
(used by the legacy script's availability field). -/
def normSpace (s : String) : String :=
  String.mk (joinWith ' ' (splitWsAux s.toList []))

/-! ## Numeric parsing modelled from Python builtins -/

/-- Numeric value of a decimal digit character. -/
def digitVal (c : Char) : Nat := c.toNat - '0'.toNat

/-- Value of a list of decimal digit characters, most significant first
(the semantics of `int(...)` on a nonempty digit string). -/
def natOfDigits (ds : List Char) : Nat :=
  ds.foldl (fun a c => a * 10 + digitVal c) 0

/-- Exponent tail of a Python float literal: an optional sign followed by
one or more digits, consuming the whole remaining input. The mantissa is
carried as a numerator/denominator pair and scaled by a power of ten. -/
def parseExpTail (m : Nat × Nat) (cs : List Char) : Option (Nat × Nat) :=
  let (sgn, ds) : Bool × List Char :=
    match cs with
    | '+' :: rest => (false, rest)
    | '-' :: rest => (true, rest)
    | rest => (false, rest)
  if ds ≠ [] ∧ ds.all Char.isDigit then
    let e : Nat := natOfDigits ds
    some (if sgn then (m.1, m.2 * 10 ^ e) else (m.1 * 10 ^ e, m.2))
  else none

/-- Mantissa value `ip.fp` built from integer-part and fraction-part
digit lists, as a numerator/denominator pair. -/
def mantissa (ip fp : List Char) : Nat × Nat :=
  (natOfDigits ip * 10 ^ fp.length + natOfDigits fp, 10 ^ fp.length)

/-- Unsigned part of a Python float literal: digits with an optional
fractional part and an optional decimal exponent, producing a
numerator/denominator pair. -/
def parseUnsigned (cs : List Char) : Option (Nat × Nat) :=
  let ip := cs.takeWhile Char.isDigit
  let rest := cs.drop ip.length
  match rest with
  | [] => if ip = [] then none else some (natOfDigits ip, 1)
  | '.' :: rest2 =>
    let fp := rest2.takeWhile Char.isDigit
    let rest3 := rest2.drop fp.length
    if ip = [] ∧ fp = [] then none
    else
      match rest3 with
      | [] => some (mantissa ip fp)
      | e :: rest4 =>
        if e = 'e' ∨ e = 'E' then parseExpTail (mantissa ip fp) rest4 else none
  | e :: rest2 =>
    if (e = 'e' ∨ e = 'E') ∧ ip ≠ [] then
      parseExpTail (natOfDigits ip, 1) rest2
    else none

/-- Modelled from the Python builtin `float(s)` restricted to the finite
decimal literals this program encounters: surrounding whitespace, an
optional sign, digits with an optional fractional part and optional
decimal exponent. (`inf`, `nan` and underscore digit separators are not
modelled.) Returns `none` exactly where `float` raises `ValueError`. -/
def pyFloat (s : String) : Option Rat :=
  match trimChars s.toList with
  | '+' :: rest => (parseUnsigned rest).map (fun m => mkRat (m.1 : Int) m.2)
  | '-' :: rest => (parseUnsigned rest).map (fun m => mkRat (-(m.1 : Int)) m.2)
  | cs => (parseUnsigned cs).map (fun m => mkRat (m.1 : Int) m.2)

/-- `float(price_text.replace('£', '').strip())`: every pound sign is
removed, the remainder stripped and parsed as a decimal. -/
def parsePrice (price_text : String) : Option Rat :=
  pyFloat (String.mk (trimChars (price_text.toList.filter (fun c => c ≠ '£'))))

/-- Modelled from `re.search(r'\((\d+) available\)', s)`: scanning left to
right, the first position where `'('` is followed by a nonempty maximal
digit run and then exactly the text `" available)"`; the captured digit
run, as a number. (Because the digit run is followed by a literal
non-digit in the pattern, backtracking inside the run can never succeed,
so matching the maximal run is exact.) -/
def availScan : List Char → Option Nat
  | [] => none
  | '(' :: rest =>
    let ds := rest.takeWhile Char.isDigit
    let tail := rest.drop ds.length
    if ds ≠ [] ∧ startsWithChars " available)".toList tail then
      some (natOfDigits ds)
    else availScan rest
  | _ :: rest => availScan rest

/-- `int(match.group(1)) if match else 0` applied to the stripped
availability text (`availability_text = ...text.strip()`). -/
def availCount (s : String) : Int :=
  match availScan (trimChars s.toList) with
  | some n => (n : Int)
  | none => 0

/-- `rating_map.get(rating_text, 0)` with
`rating_map = {"One": 1, "Two": 2, "Three": 3, "Four": 4, "Five": 5}`. -/
def ratingVal (t : String) : Int :=
  if t = "One" then 1
  else if t = "Two" then 2
  else if t = "Three" then 3
  else if t = "Four" then 4
  else if t = "Five" then 5
  else 0

/-! ## URL resolution modelled from `urllib.parse.urljoin` -/

/-- Split a character list at its first `':'`, returning the parts before
and after it. -/
def splitColon : List Char → Option (List Char × List Char)
  | [] => none
  | c :: rest =>
    if c = ':' then some ([], rest)
    else (splitColon rest).map (fun p => (c :: p.1, p.2))

/-- Characters allowed after the first character of a URL scheme. -/
def schemeChar (c : Char) : Bool := c.isAlphanum || c = '+' || c = '-' || c = '.'

/-- Is `cs` a syntactically valid URL scheme (nonempty, letter first)? -/
def validScheme : List Char → Bool
  | [] => false
  | c :: rest => c.isAlpha && rest.all schemeChar

/-- Split a URL string into its scheme and the remainder after the `':'`,
when it has a valid scheme. -/
def schemeSplit (s : String) : Option (String × String) :=
  match splitColon s.toList with
  | none => none
  | some (pre, suf) =>
    if validScheme pre then some (String.mk pre, String.mk suf) else none

/-- A URL is absolute when it carries a scheme (the spec's notion of
absoluteness). -/
def hasScheme (s : String) : Bool := (schemeSplit s).isSome

/-- A URL of the hierarchical `scheme://netloc/...` shape that relative
references resolve into. -/
def absHttp (s : String) : Bool :=
  match schemeSplit s with
  | some (_, rest) => startsWithChars ['/', '/'] rest.toList
  | none => false

/-- Remove-dot-segments over path segments (RFC 3986, as performed by
`urljoin`): `.` is dropped, `..` pops, a trailing `.` or `..` leaves a
trailing slash. -/
def rdsAux : List (List Char) → List (List Char) → List (List Char)
  | acc, [] => acc
  | acc, seg :: rest =>
    if seg = ['.'] then
      if rest = [] then acc ++ [[]] else rdsAux acc rest
    else if seg = ['.', '.'] then
      if rest = [] then acc.dropLast ++ [[]] else rdsAux acc.dropLast rest
    else rdsAux (acc ++ [seg]) rest

/-- Remove dot segments from an absolute path (characters starting with
`'/'`). -/
def rdsChars (cs : List Char) : List Char :=
  '/' :: joinWith '/' (rdsAux [] (splitSepAux '/' (cs.drop 1) []))

/-- The directory part of a path: everything up to and including the last
`'/'`; `"/"` when the path has none. -/
def dirChars (cs : List Char) : List Char :=
  if cs.contains '/' then (cs.reverse.dropWhile (fun c => c ≠ '/')).reverse
  else ['/']

/-- Modelled from `urllib.parse.urljoin(base, url)` for the http(s)-style
URLs this program manipulates (query and fragment components, which never
occur here, are not modelled): an absolute `url` is returned unchanged;
otherwise it is resolved against `base`'s scheme, network location and
directory, with dot segments removed. -/
def urljoin (base url : String) : String :=
  if url = "" then base
  else if hasScheme url then url
  else
    match schemeSplit base with
    | none => url
    | some (sch, rest) =>
      let rcs := rest.toList
      if startsWithChars ['/', '/'] rcs then
        let hostPath := rcs.drop 2
        let netloc := hostPath.takeWhile (fun c => c ≠ '/')
        let basePath := hostPath.dropWhile (fun c => c ≠ '/')
        let ucs := url.toList
        if startsWithChars ['/', '/'] ucs then sch ++ ":" ++ url
        else if startsWithChars ['/'] ucs then
          sch ++ ":" ++ String.mk ('/' :: '/' :: (netloc ++ rdsChars ucs))
        else
          sch ++ ":" ++ String.mk ('/' :: '/' :: (netloc ++ rdsChars (dirChars basePath ++ ucs)))
      else url

/-! ## The DOM as seen through the scraper's queries

Each field models one `soup.find(...)` query the code performs; `none`
means the node (or attribute) is absent. -/

/-- An anchor tag's `href` attribute (`none` = attribute absent). -/
structure ANode where
  href : Option String
deriving DecidableEq, Repr

/-- The `h3` inside an `article.product_pod` card; `a` is
`h3.find("a")`. -/
structure CardH3 where
  a : Option ANode
deriving DecidableEq, Repr

/-- One `article.product_pod` listing card; `h3` is
`book.find("h3")`. -/
structure Card where
  h3 : Option CardH3
deriving DecidableEq, Repr

/-- The `li.next` pagination node; `a` is its `find("a")`. -/
structure NextLi where
  a : Option ANode
deriving DecidableEq, Repr

/-- The `p.star-rating` node; `classAttr` is its `"class"` attribute
list (`none` = attribute absent). -/
structure StarP where
  classAttr : Option (List String)
deriving DecidableEq, Repr

/-- An `img` tag's `src` attribute. -/
structure ImgNode where
  src : Option String
deriving DecidableEq, Repr

/-- The `div#product_gallery` node; `img` is its `find("img")`. -/
structure Gallery where
  img : Option ImgNode
deriving DecidableEq, Repr

/-- A parsed page, as the fixed set of queries the scraper performs on
it. Detail-page queries and listing-page queries live on the same
`BeautifulSoup` object in the code, hence one structure. -/
structure Soup where
  h1 : Option String
  price_color : Option String
  star_rating : Option StarP
  instock : Option String
  breadcrumb : Option (List String)
  product_gallery : Option Gallery
  product_pods : List Card
  li_next : Option NextLi
deriving DecidableEq, Repr

/-- The transport collaborator:
`requests.get(url)` + `raise_for_status()` + `BeautifulSoup(...)`.
`none` models a raised `requests.exceptions.RequestException`. -/
def Fetcher : Type := String → Option Soup

/-! ## `RunScraper._get_book_details` -/

/-- `RunScraper.BASE_URL`. -/
def BASE_URL : String := "https://books.toscrape.com/catalogue/"

/-- The dict returned by `RunScraper._get_book_details` on success
(note the source's `avaliability` spelling). -/
structure Book where
  title : String
  price : Rat
  rating : Int
  avaliability : Int
  category : String
  image_url : String
deriving DecidableEq, Repr

/-- The body of `RunScraper._get_book_details`, before its `except`
clauses: each absent node or failed parse raises the exception the
corresponding Python expression raises, in source order (title, price,
rating, availability, category, image). -/
def getBookDetailsRaw (fetch : Fetcher) (book_url : String) :
    Except PyExc Book :=
  match fetch book_url with
  | none => .error .requestException
  | some soup =>
  match soup.h1 with
  | none => .error .attributeError
  | some title =>
  match soup.price_color with
  | none => .error .attributeError
  | some price_text =>
  match parsePrice price_text with
  | none => .error .valueError
  | some price =>
  match soup.star_rating with
  | none => .error .typeError
  | some star =>
  match star.classAttr with
  | none => .error .keyError
  | some cls =>
  match cls.get? 1 with
  | none => .error .indexError
  | some rating_text =>
  match soup.instock with
  | none => .error .attributeError
  | some avail_text =>
  match soup.breadcrumb with
  | none => .error .attributeError
  | some crumbs =>
  match crumbs.get? 2 with
  | none => .error .indexError
  | some category =>
  match soup.product_gallery with
  | none => .error .attributeError
  | some gallery =>
  match gallery.img with
  | none => .error .typeError
  | some img =>
  match img.src with
  | none => .error .keyError
  | some image_relative_url =>
    .ok { title := title, price := price, rating := ratingVal rating_text,
          avaliability := availCount avail_text, category := category,
          image_url := urljoin book_url image_relative_url }

/-- Keys of the dict literal `RunScraper._get_book_details` returns, in
source order. -/
def bookDictKeys : List String :=
  ["title", "price", "rating", "avaliability", "category", "image_url"]

/-- Exceptions caught by `_get_book_details`'s two `except` clauses
(`requests.exceptions.RequestException` and
`(AttributeError, KeyError, ValueError)`); a caught exception makes the
function return `None`. -/
def caughtByDetails (e : PyExc) : Bool :=
  match e with
  | .requestException => true
  | .attributeError => true
  | .keyError => true
  | .valueError => true
  | .indexError => false
  | .typeError => false

/-- `RunScraper._get_book_details`: `.ok (some b)` = a full record,
`.ok none` = `return None` from a caught exception, `.error e` = an
exception that escapes the function. -/
def getBookDetails (fetch : Fetcher) (book_url : String) :
    Except PyExc (Option Book) :=
  match getBookDetailsRaw fetch book_url with
  | .ok b => .ok (some b)
  | .error e => if caughtByDetails e then .ok none else .error e

/-! ## The legacy script `scripts/scraper.py`'s `get_book_details` -/

/-- The dict returned by the legacy script's `get_book_details`: price
and availability are kept as text, and the input URL is recorded under
`book_url`. -/
structure ScriptBook where
  title : String
  price : String
  rating : Int
  availability : String
  category : String
  image_url : String
  book_url : String
deriving DecidableEq, Repr

/-- Exceptions caught by the script `get_book_details`'s `except`
clauses (`RequestException` and `(AttributeError, KeyError)`). -/
def caughtByScript (e : PyExc) : Bool :=
  match e with
  | .requestException => true
  | .attributeError => true
  | .keyError => true
  | .valueError => false
  | .indexError => false
  | .typeError => false

/-- Body of the legacy `get_book_details` before its `except` clauses. -/
def scriptDetailsRaw (fetch : Fetcher) (book_url : String) :
    Except PyExc ScriptBook :=
  match fetch book_url with
  | none => .error .requestException
  | some soup =>
  match soup.h1 with
  | none => .error .attributeError
  | some title =>
  match soup.price_color with
  | none => .error .attributeError
  | some price =>
  match soup.star_rating with
  | none => .error .typeError
  | some star =>
  match star.classAttr with
  | none => .error .keyError
  | some cls =>
  match cls.get? 1 with
  | none => .error .indexError
  | some rating_text =>
  match soup.instock with
  | none => .error .attributeError
  | some avail_text =>
  match soup.breadcrumb with
  | none => .error .attributeError
  | some crumbs =>
  match crumbs.get? 2 with
  | none => .error .indexError
  | some category =>
  match soup.product_gallery with
  | none => .error .attributeError
  | some gallery =>
  match gallery.img with
  | none => .error .typeError
  | some img =>
  match img.src with
  | none => .error .keyError
  | some image_relative_url =>
    .ok { title := title, price := price, rating := ratingVal rating_text,
          availability := normSpace (String.mk (trimChars avail_text.toList)),
          category := category,
          image_url := urljoin book_url image_relative_url,
          book_url := book_url }

/-- The legacy script's `get_book_details`. -/
def scriptGetBookDetails (fetch : Fetcher) (book_url : String) :
    Except PyExc (Option ScriptBook) :=
  match scriptDetailsRaw fetch book_url with
  | .ok b => .ok (some b)
  | .error e => if caughtByScript e then .ok none else .error e

/-! ## `RunScraper._scrape_all_books` -/

/-- `book.find("h3").find("a")["href"]` with the exception each missing
step raises. -/
def cardHref (c : Card) : Except PyExc String :=
  match c.h3 with
  | none => .error .attributeError
  | some h3 =>
  match h3.a with
  | none => .error .typeError
  | some a =>
  match a.href with
  | none => .error .keyError
  | some h => .ok h

/-- The `for book in books_on_page` loop: resolve each card's link
against `BASE_URL`, fetch and extract it, keep non-`None` results in
order. Returns the accumulated list together with the first exception
that escapes the loop body, if any (records appended before it are
kept, as the Python list mutation keeps them). -/
def processCards (fetch : Fetcher) : List Card → List Book →
    List Book × Option PyExc
  | [], acc => (acc, none)
  | c :: rest, acc =>
    match cardHref c with
    | .error e => (acc, some e)
    | .ok h =>
      match getBookDetails fetch (urljoin BASE_URL h) with
      | .error e => (acc, some e)
      | .ok none => processCards fetch rest acc
      | .ok (some b) => processCards fetch rest (acc ++ [b])

/-- The `soup.find("li", class_="next")` handling: `none` result =
no next page (`current_url = None`); a present node's
`find("a")["href"]` is resolved against `BASE_URL`. -/
def nextUrl (soup : Soup) : Except PyExc (Option String) :=
  match soup.li_next with
  | none => .ok none
  | some li =>
  match li.a with
  | none => .error .typeError
  | some a =>
  match a.href with
  | none => .error .keyError
  | some h => .ok (some (urljoin BASE_URL h))

/-- One iteration of the `while current_url:` body after a successful
listing fetch: process the cards, then compute the next URL; the first
component is the accumulator state when the iteration ends (normally or
by exception). -/
def pageBody (fetch : Fetcher) (soup : Soup) (acc : List Book) :
    List Book × Except PyExc (Option String) :=
  match processCards fetch soup.product_pods acc with
  | (acc2, some e) => (acc2, .error e)
  | (acc2, none) =>
    match nextUrl soup with
    | .error e => (acc2, .error e)
    | .ok nxt => (acc2, .ok nxt)

/-- The `while current_url:` loop of `_scrape_all_books`, fuel-indexed:
`none` = fuel exhausted (the model's stand-in for a loop that has not
yet terminated), `some (.error e)` = an exception escapes the function,
`some (.ok books)` = normal return. A listing fetch failure
(`except requests.exceptions.RequestException`) sets
`current_url = None`, ending the walk with what was accumulated. -/
def scrapeLoop (fetch : Fetcher) :
    Nat → Option String → List Book → Option (Except PyExc (List Book))
  | _, none, acc => some (.ok acc)
  | 0, some _, _ => none
  | fuel + 1, some url, acc =>
    match fetch url with
    | none => scrapeLoop fetch fuel none acc
    | some soup =>
      match pageBody fetch soup acc with
      | (acc2, .error e) =>
        if e = .requestException then scrapeLoop fetch fuel none acc2
        else some (.error e)
      | (acc2, .ok nxt) => scrapeLoop fetch fuel nxt acc2

/-- `RunScraper._scrape_all_books`: start at
`urljoin(BASE_URL, "page-1.html")` with an empty accumulator. -/
def scrape_all_books (fetch : Fetcher) (fuel : Nat) :
    Option (Except PyExc (List Book)) :=
  scrapeLoop fetch fuel (some (urljoin BASE_URL "page-1.html")) []

/-! ## `RunScraper.execute` — dataset assembly and result dict -/

/-- One row of the output dataset, in the schema column order
`id, title, price, rating, avaliability, category, image_url`. -/
structure Row where
  id : Nat
  title : String
  price : Rat
  rating : Int
  avaliability : Int
  category : String
  image_url : String
deriving DecidableEq, Repr

/-- The assembly step of `execute`:
`df = pd.DataFrame(scraped_data); df['id'] = df.index + 1;
df = df[schema_columns]`. On a nonempty record list every record dict
contributes its keys as columns, `id` is the zero-based position plus
one, and the columns are reordered to the schema. On an empty list
`pd.DataFrame([])` has no columns, so selecting the schema columns
raises a `KeyError`. -/
def assembleRows (records : List Book) : List Row :=
  records.enum.map (fun p =>
    { id := p.1 + 1, title := p.2.title, price := p.2.price,
      rating := p.2.rating, avaliability := p.2.avaliability,
      category := p.2.category, image_url := p.2.image_url })

/-- The assembly step, total over its input: `KeyError` on the empty
list (see `assemble`'s docstring), the enumerated rows otherwise. -/
def assemble (records : List Book) : Except PyExc (List Row) :=
  match records with
  | [] => .error .keyError
  | _ => .ok (assembleRows records)

/-- The dict literal `execute` returns (its four keys, in source
order, are `success`, `message`, `books_count`, `file_path`). -/
structure ExecResult where
  success : Bool
  message : String
  books_count : Nat
  file_path : Option String
deriving DecidableEq, Repr

/-- Keys of the dict literal `execute` returns. -/
def execResultKeys : List String :=
  ["success", "message", "books_count", "file_path"]

/-- The message built when no data was collected. -/
def noDataMsg : String :=
  "Nenhum dado foi coletado. Verifique a conexão com o site."

/-- The success message (`f"Scraping concluído com sucesso. "
f"{books_count} livros foram coletados e salvos."`). -/
def okMsg (n : Nat) : String :=
  "Scraping concluído com sucesso. " ++ toString n ++
    " livros foram coletados e salvos."

/-- The output CSV path, with the environment-dependent directory roots
of `os.path.join(os.path.dirname(__file__), ...)` elided. -/
def output_file : String := "data/books.csv"

/-- `RunScraper.execute`: run the scrape; with no data return the
no-data dict without assembling anything; otherwise assemble, write and
return the success dict. Any exception escaping the body is re-raised
(`except Exception ... raise`), modelled by keeping `.error`. The second
component of the pair is the dataset handed to the persistence sink
(`df.to_csv`), `none` when nothing is written. -/
def executeRun (fetch : Fetcher) (fuel : Nat) :
    Option (Except PyExc (ExecResult × Option (List Row))) :=
  match scrape_all_books fetch fuel with
  | none => none
  | some (.error e) => some (.error e)
  | some (.ok scraped) =>
    match scraped with
    | [] =>
      some (.ok ({ success := false, message := noDataMsg,
                   books_count := 0, file_path := none }, none))
    | _ =>
      match assemble scraped with
      | .error e => some (.error e)
      | .ok rows =>
        some (.ok ({ success := true, message := okMsg scraped.length,
                     books_count := scraped.length,
                     file_path := some output_file }, some rows))

/-! ## Concrete pages used by the scenario theorems -/

/-- A listing card whose `h3 > a` carries the given `href`. -/
def mkCard (href : String) : Card := ⟨some ⟨some ⟨some href⟩⟩⟩

/-- A listing page: item cards plus an optional `li.next > a[href]`. -/
def mkListing (hrefs : List String) (nexthref : Option String) : Soup :=
  { h1 := none, price_color := none, star_rating := none, instock := none,
    breadcrumb := none, product_gallery := none,
    product_pods := hrefs.map mkCard,
    li_next := nexthref.map (fun h => ⟨some ⟨some h⟩⟩) }

/-- A detail page with every node the extractor queries present. -/
def mkDetail (title ptext : String) (cls : List String) (avtext : String)
    (crumbs : List String) (src : String) : Soup :=
  { h1 := some title, price_color := some ptext,
    star_rating := some ⟨some cls⟩, instock := some avtext,
    breadcrumb := some crumbs, product_gallery := some ⟨some ⟨some src⟩⟩,
    product_pods := [], li_next := none }

/-- A fully valid detail page parameterised by title and price text. -/
def validDetail (title ptext : String) : Soup :=
  mkDetail title ptext ["star-rating", "Three"] "In stock (7 available)"
    ["Home", "Books", "Fiction"] "../img.jpg"

/-- The two-page end-to-end scenario of the spec's testable properties:
page 1 lists a malformed-price item and a valid one, page 2 lists one
more valid item and has no next link. -/
def scenarioFetch : Fetcher := fun u =>
  if u = urljoin BASE_URL "page-1.html" then
    some (mkListing ["bad.html", "good1.html"] (some "page-2.html"))
  else if u = urljoin BASE_URL "page-2.html" then
    some (mkListing ["good2.html"] none)
  else if u = urljoin BASE_URL "bad.html" then
    some (validDetail "Bad" "oops")
  else if u = urljoin BASE_URL "good1.html" then
    some (validDetail "Good One" "£5.00")
  else if u = urljoin BASE_URL "good2.html" then
    some (validDetail "Good Two" "£7.00")
  else none

/-- The record extracted from the first valid scenario item. -/
def good1Book : Book :=
  { title := "Good One", price := 5, rating := 3, avaliability := 7,
    category := "Fiction",
    image_url := "https://books.toscrape.com/img.jpg" }

/-- The record extracted from the second valid scenario item. -/
def good2Book : Book :=
  { title := "Good Two", price := 7, rating := 3, avaliability := 7,
    category := "Fiction",
    image_url := "https://books.toscrape.com/img.jpg" }

/-- Row 1 of the scenario dataset. -/
def good1Row : Row :=
  { id := 1, title := "Good One", price := 5, rating := 3, avaliability := 7,
    category := "Fiction",
    image_url := "https://books.toscrape.com/img.jpg" }

/-- Row 2 of the scenario dataset. -/
def good2Row : Row :=
  { id := 2, title := "Good Two", price := 7, rating := 3, avaliability := 7,
    category := "Fiction",
    image_url := "https://books.toscrape.com/img.jpg" }

/-- The record extracted from `validDetail "Good" p` when the price text
`p` parses to `v`, at the detail URL the walker constructs for
`"good.html"`. -/
def priceGoodBook (v : Rat) : Book :=
  { title := "Good", price := v, rating := 3, avaliability := 7,
    category := "Fiction",
    image_url := urljoin (urljoin BASE_URL "good.html") "../img.jpg" }

/-- A concrete absolute detail-page URL used by single-page scenarios. -/
def detailUrl : String := "https://books.toscrape.com/catalogue/x.html"

/-- The record `_get_book_details` extracts from
`validDetail "Neg" "-1.00"`: the price text parses as a negative
decimal and is emitted unchecked. -/
def negBook : Book :=
  { title := "Neg", price := -1, rating := 3, avaliability := 7,
    category := "Fiction",
    image_url := "https://books.toscrape.com/img.jpg" }

/-- A detail page whose image reference is the plain relative name
`"i.jpg"`. -/
def relDetail : Soup :=
  mkDetail "Rel" "£5.00" ["star-rating", "Three"] "In stock (7 available)"
    ["Home", "Books", "Fiction"] "i.jpg"

/-- The record extracted from `relDetail` when the detail URL passed to
the extractor is itself relative (`"x.html"`): `urljoin` leaves the
relative image reference unresolved, so the emitted `image_url` has no
scheme. -/
def relBook : Book :=
  { title := "Rel", price := 5, rating := 3, avaliability := 7,
    category := "Fiction", image_url := "i.jpg" }

/-- A run whose only item has a breadcrumb trail that is present but has
just two links. -/
def shortCrumbFetch : Fetcher := fun u =>
  if u = urljoin BASE_URL "page-1.html" then
    some (mkListing ["short.html"] none)
  else if u = urljoin BASE_URL "short.html" then
    some (mkDetail "T" "£5.00" ["star-rating", "Three"] "In stock"
      ["Home", "Books"] "i.jpg")
  else none

/-- A detail page whose breadcrumb trail is absent entirely. -/
def noCrumbDetail : Soup :=
  { validDetail "T" "£5.00" with breadcrumb := none }

/-- A detail page parameterised by rating class token and availability
text, all strict fields valid. -/
def ratingDetail (tok avtext : String) : Soup :=
  mkDetail "T" "£5.00" ["star-rating", tok] avtext
    ["Home", "Books", "Fiction"] "../img.jpg"

/-- A one-page run whose first item has price text `pbad` and whose
second has price text `pgood`. -/
def priceFetch (pgood pbad : String) : Fetcher := fun u =>
  if u = urljoin BASE_URL "page-1.html" then
    some (mkListing ["bad.html", "good.html"] none)
  else if u = urljoin BASE_URL "bad.html" then
    some (validDetail "Bad" pbad)
  else if u = urljoin BASE_URL "good.html" then
    some (validDetail "Good" pgood)
  else none

/-- A run where page 1 has one valid item and the page-2 listing fetch
fails (transport error). -/
def c7Fetch : Fetcher := fun u =>
  if u = urljoin BASE_URL "page-1.html" then
    some (mkListing ["a.html"] (some "page-2.html"))
  else if u = urljoin BASE_URL "a.html" then
    some (validDetail "A" "£5.00")
  else none

/-- The record extracted from `c7Fetch`'s single item. -/
def aBook : Book :=
  { title := "A", price := 5, rating := 3, avaliability := 7,
    category := "Fiction",
    image_url := "https://books.toscrape.com/img.jpg" }

/-- The script-extractor record from `validDetail "T" "£5.00"` fetched at
`detailUrl`. -/
def scriptBookT : ScriptBook :=
  { title := "T", price := "£5.00", rating := 3,
    availability := "In stock (7 available)", category := "Fiction",
    image_url := "https://books.toscrape.com/img.jpg",
    book_url := detailUrl }

/-- A fetcher that distinguishes base-URL resolution from
listing-page-relative resolution. Page 1 (in `/catalogue/`) has no items
and its next link walks up to `/index.html`. On that page, the item href
`"y.html"` is served with a real record only at the `BASE_URL`-resolved
location (`/catalogue/y.html`); a decoy with a different title sits at
the page-relative location (`/y.html`). The item href `"../d.html"`
resolves (against `BASE_URL`) to `/d.html`, whose image reference
`"pic.jpg"` can only resolve to `/pic.jpg` if the detail page's own URL
is the base. The next href `"z.html"` is served as an empty listing at
`/catalogue/z.html`; the page-relative location `/z.html` is a decoy
listing with one more item. -/
def c10Fetch : Fetcher := fun u =>
  if u = urljoin BASE_URL "page-1.html" then
    some (mkListing [] (some "../index.html"))
  else if u = "https://books.toscrape.com/index.html" then
    some (mkListing ["y.html", "../d.html"] (some "z.html"))
  else if u = "https://books.toscrape.com/catalogue/y.html" then
    some (validDetail "Real" "£5.00")
  else if u = "https://books.toscrape.com/y.html" then
    some (validDetail "Decoy" "£5.00")
  else if u = "https://books.toscrape.com/d.html" then
    some (mkDetail "D" "£6.00" ["star-rating", "Two"] "In stock (3 available)"
      ["Home", "Books", "Poetry"] "pic.jpg")
  else if u = "https://books.toscrape.com/catalogue/z.html" then
    some (mkListing [] none)
  else if u = "https://books.toscrape.com/z.html" then
    some (mkListing ["w.html"] none)
  else if u = "https://books.toscrape.com/catalogue/w.html" then
    some (validDetail "Wrong" "£5.00")
  else none

/-- The record from `/catalogue/y.html` (base-resolved item link). -/
def realBook : Book :=
  { title := "Real", price := 5, rating := 3, avaliability := 7,
    category := "Fiction",
    image_url := "https://books.toscrape.com/img.jpg" }

/-- The record from `/d.html`: its image URL is resolved against the
detail page's own URL, hence `/pic.jpg`, not `/catalogue/pic.jpg`. -/
def dBook : Book :=
  { title := "D", price := 6, rating := 2, avaliability := 3,
    category := "Poetry",
    image_url := "https://books.toscrape.com/pic.jpg" }

/-! ## Helper lemmas -/

theorem ratingVal_nonneg (t : String) : 0 ≤ ratingVal t := by
  unfold ratingVal
  repeat' split
  all_goals decide

theorem ratingVal_le_five (t : String) : ratingVal t ≤ 5 := by
  unfold ratingVal
  repeat' split
  all_goals decide

theorem availCount_nonneg (s : String) : 0 ≤ availCount s := by
  unfold availCount
  split
  · exact Int.ofNat_nonneg _
  · decide

theorem toList_append (a b : String) : (a ++ b).toList = a.toList ++ b.toList := by
  cases a
  cases b
  rfl

theorem validScheme_no_colon (cs : List Char) (h : validScheme cs = true) :
    ∀ c ∈ cs, c ≠ ':' := by
  cases cs with
  | nil => simp
  | cons c rest =>
    unfold validScheme at h
    rw [Bool.and_eq_true, List.all_eq_true] at h
    intro d hd hc
    subst hc
    rcases List.mem_cons.mp hd with h1 | h1
    · rw [← h1] at h
      exact absurd h.1 (by decide)
    · exact absurd (h.2 ':' h1) (by decide)

theorem splitColon_append (pre t : List Char) (h : ∀ c ∈ pre, c ≠ ':') :
    splitColon (pre ++ ':' :: t) = some (pre, t) := by
  induction pre with
  | nil => simp [splitColon]
  | cons c cs ih =>
    have hc : c ≠ ':' := h c (by simp)
    have ih2 := ih (fun d hd => h d (by simp [hd]))
    simp only [List.cons_append, splitColon, if_neg hc, List.append_eq]
    rw [ih2]
    rfl

theorem hasScheme_scheme_append (sch t : String)
    (h : validScheme sch.toList = true) :
    hasScheme (sch ++ ":" ++ t) = true := by
  unfold hasScheme schemeSplit
  have hl : (sch ++ ":" ++ t).toList = sch.toList ++ ':' :: t.toList := by
    rw [toList_append, toList_append]
    simp
  rw [hl, splitColon_append sch.toList t.toList (validScheme_no_colon _ h)]
  have h2 : validScheme sch.data = true := h
  simp [h2]

theorem schemeSplit_valid (s sch rest : String)
    (h : schemeSplit s = some (sch, rest)) : validScheme sch.toList = true := by
  unfold schemeSplit at h
  cases hsc : splitColon s.toList with
  | none => rw [hsc] at h; exact absurd h (by simp)
  | some p =>
    obtain ⟨pre, suf⟩ := p
    rw [hsc] at h
    simp only at h
    by_cases hv : validScheme pre = true
    · rw [if_pos hv] at h
      have hs : sch = String.mk pre := (congrArg Prod.fst (Option.some.inj h)).symm
      rw [hs]
      exact hv
    · rw [if_neg hv] at h
      exact absurd h (by simp)

theorem hasScheme_urljoin (base url : String) (hb : absHttp base = true) :
    hasScheme (urljoin base url) = true := by
  unfold absHttp at hb
  cases hsb : schemeSplit base with
  | none => rw [hsb] at hb; exact absurd hb (by simp)
  | some p =>
    obtain ⟨sch, rest⟩ := p
    rw [hsb] at hb
    simp only at hb
    have hv : validScheme sch.toList = true := schemeSplit_valid base sch rest hsb
    unfold urljoin
    by_cases h0 : url = ""
    · rw [if_pos h0]
      unfold hasScheme
      rw [hsb]
      rfl
    · rw [if_neg h0]
      by_cases h1 : hasScheme url
      · rw [if_pos h1]
        exact h1
      · rw [if_neg h1, hsb]
        simp only [hb, if_true]
        by_cases h2 : startsWithChars ['/', '/'] url.toList = true
        · rw [if_pos h2]
          exact hasScheme_scheme_append sch url hv
        · rw [if_neg h2]
          by_cases h3 : startsWithChars ['/'] url.toList = true
          · rw [if_pos h3]
            exact hasScheme_scheme_append sch _ hv
          · rw [if_neg h3]
            exact hasScheme_scheme_append sch _ hv

theorem processCards_app (fetch : Fetcher) (hrefs : List String)
    (f : String → Book) (acc : List Book)
    (h : ∀ x ∈ hrefs,
      getBookDetails fetch (urljoin BASE_URL x) = .ok (some (f x))) :
    processCards fetch (hrefs.map mkCard) acc = (acc ++ hrefs.map f, none) := by
  induction hrefs generalizing acc with
  | nil => simp [processCards]
  | cons x xs ih =>
    have hx := h x (by simp)
    simp only [List.map_cons, processCards, mkCard, cardHref]
    rw [hx]
    simp only []
    rw [ih (acc ++ [f x]) (fun y hy => h y (by simp [hy]))]
    simp

theorem scrapeLoop_stop (fetch : Fetcher) (fuel : Nat) (acc : List Book) :
    scrapeLoop fetch fuel none acc = some (.ok acc) := by
  cases fuel <;> rfl

theorem scrapeLoop_fetch_fail (fetch : Fetcher) (fuel : Nat) (url : String)
    (acc : List Book) (h : fetch url = none) :
    scrapeLoop fetch (fuel + 1) (some url) acc = some (.ok acc) := by
  unfold scrapeLoop
  rw [h]
  exact scrapeLoop_stop fetch fuel acc

theorem scrapeLoop_fetch_ok (fetch : Fetcher) (fuel : Nat) (url : String)
    (acc acc2 : List Book) (soup : Soup) (nxt : Option String)
    (h : fetch url = some soup)
    (hpb : pageBody fetch soup acc = (acc2, .ok nxt)) :
    scrapeLoop fetch (fuel + 1) (some url) acc = scrapeLoop fetch fuel nxt acc2 := by
  conv_lhs => unfold scrapeLoop
  rw [h]
  simp only []
  rw [hpb]

theorem assembleRows_map_id (records : List Book) :
    (assembleRows records).map Row.id =
      (List.range records.length).map (fun i => i + 1) := by
  unfold assembleRows
  rw [List.map_map]
  have hc : (Row.id ∘ fun p : Nat × Book =>
      ({ id := p.1 + 1, title := p.2.title, price := p.2.price,
         rating := p.2.rating, avaliability := p.2.avaliability,
         category := p.2.category, image_url := p.2.image_url } : Row)) =
      (fun i => i + 1) ∘ Prod.fst := rfl
  rw [hc, ← List.map_map, List.enum_map_fst]

theorem assembleRows_map_title (records : List Book) :
    (assembleRows records).map Row.title = records.map Book.title := by
  unfold assembleRows
  rw [List.map_map]
  have hc : (Row.title ∘ fun p : Nat × Book =>
      ({ id := p.1 + 1, title := p.2.title, price := p.2.price,
         rating := p.2.rating, avaliability := p.2.avaliability,
         category := p.2.category, image_url := p.2.image_url } : Row)) =
      Book.title ∘ Prod.snd := rfl
  rw [hc, ← List.map_map, List.enum_map_snd]

/-! ## Claim theorems -/

/-- C1 (amended): every record emitted by `RunScraper._get_book_details`
is fully populated, with `rating` an integer in `{0,...,5}`, a
non-negative `avaliability` count, and an absolute `image_url` whenever
the detail-page URL the extractor was given is itself an absolute
hierarchical URL (as every URL the orchestrator constructs is). The
price is parsed with the currency symbol stripped but its sign is not
validated — see the counterexample. -/
theorem emitted_record_fields (fetch : Fetcher) (url : String) (b : Book)
    (h : getBookDetails fetch url = .ok (some b)) :
    0 ≤ b.rating ∧ b.rating ≤ 5 ∧ 0 ≤ b.avaliability ∧
      (absHttp url = true → hasScheme b.image_url = true) := by
  have hraw : getBookDetailsRaw fetch url = .ok b := by
    unfold getBookDetails at h
    split at h
    · rename_i b2 heq
      simp only [Except.ok.injEq, Option.some.injEq] at h
      rw [h] at heq
      exact heq
    · split at h <;> simp_all
  unfold getBookDetailsRaw at hraw
  repeat' split at hraw
  all_goals injection hraw
  all_goals rename_i hb
  all_goals subst hb
  all_goals
    refine ⟨ratingVal_nonneg _, ratingVal_le_five _, availCount_nonneg _, ?_⟩
  all_goals intro habs
  all_goals exact hasScheme_urljoin url _ habs

/-- C1 witness: the first valid scenario record satisfies the field
invariants, with every hypothesis discharged by evaluation. -/
theorem emitted_record_fields_witness :
    0 ≤ good1Book.rating ∧ good1Book.rating ≤ 5 ∧ 0 ≤ good1Book.avaliability ∧
      (absHttp (urljoin BASE_URL "good1.html") = true →
        hasScheme good1Book.image_url = true) :=
  emitted_record_fields scenarioFetch (urljoin BASE_URL "good1.html")
    good1Book (by decide)

/-- C1 counterexample: the extractor emits a record with a negative
price from the price text `"-1.00"`, and a record whose `image_url` has
no scheme when the detail URL it is given is relative — the claim's
unconditional `price >= 0` and absolute-`image_url` guarantees fail. -/
theorem emitted_record_not_validated :
    getBookDetails (fun _ => some (validDetail "Neg" "-1.00")) detailUrl =
      .ok (some negBook) ∧
    negBook.price < 0 ∧
    getBookDetails (fun _ => some relDetail) "x.html" = .ok (some relBook) ∧
    hasScheme relBook.image_url = false := by decide

/-- C2: on every non-empty record list the assembly step succeeds and
assigns `id`s that are exactly `1, ..., N` in input order (no gaps, no
repeats), regardless of record contents. -/
theorem assemble_ids_sequential (records : List Book) (h : records ≠ []) :
    assemble records = .ok (assembleRows records) ∧
    (assembleRows records).map Row.id =
      (List.range records.length).map (fun i => i + 1) ∧
    (assembleRows records).map Row.title = records.map Book.title := by
  refine ⟨?_, assembleRows_map_id records, assembleRows_map_title records⟩
  match records, h with
  | r :: rs, _ => rfl

/-- C2 witness: assembly of a concrete one-record list. -/
theorem assemble_ids_sequential_witness :
    assemble [good1Book] = .ok (assembleRows [good1Book]) ∧
    (assembleRows [good1Book]).map Row.id =
      (List.range 1).map (fun i => i + 1) ∧
    (assembleRows [good1Book]).map Row.title = [good1Book].map Book.title :=
  assemble_ids_sequential [good1Book] (by simp)

/-- C3 (code bug): a breadcrumb trail that is present but has fewer than
three links raises `IndexError`, which is absent from
`_get_book_details`'s `except (AttributeError, KeyError, ValueError)`
clause, escapes `_scrape_all_books` (whose loop catches only
`RequestException`) and escapes `execute` as a re-raised exception —
contradicting both the claim and the function's own docstring
(`"ou None em caso de erro"`). An entirely absent trail, by contrast,
raises `AttributeError`, which is caught and skips the item. -/
theorem short_breadcrumb_escapes_run :
    getBookDetails shortCrumbFetch (urljoin BASE_URL "short.html") =
      .error .indexError ∧
    scrape_all_books shortCrumbFetch 2 = some (.error .indexError) ∧
    executeRun shortCrumbFetch 2 = some (.error .indexError) ∧
    getBookDetails (fun _ => some noCrumbDetail) detailUrl = .ok none := by
  decide

/-- C4 counterexample: in the claim's own two-page scenario the value
`run()`/`execute` returns is, in full, the record list and a four-key
dict whose only count is `books_count = 2` (the number succeeded); no
key carrying a count of items attempted exists, so the claimed
`attempted == 3` is carried nowhere. -/
theorem run_result_carries_no_attempted_count :
    executeRun scenarioFetch 3 =
      some (.ok ({ success := true, message := okMsg 2, books_count := 2,
                   file_path := some output_file },
                 some [good1Row, good2Row])) ∧
    execResultKeys.contains "attempted" = false := by decide

/-- C4 (amended): in the two-page scenario (3 discovered items, one with
a malformed price) the walk returns exactly the two valid records in
discovery order, `execute` reports `books_count = 2` (the succeeded
count — no attempted count is tracked anywhere), and the assembled
dataset has two rows with `id` 1 and 2 in discovery order. -/
theorem two_page_scenario_counts :
    scrape_all_books scenarioFetch 3 = some (.ok [good1Book, good2Book]) ∧
    (∃ res rows, executeRun scenarioFetch 3 = some (.ok (res, some rows)) ∧
      res.books_count = 2 ∧ rows.map Row.id = [1, 2] ∧
      rows.map Row.title = ["Good One", "Good Two"]) := by
  refine ⟨by decide,
    ⟨{ success := true, message := okMsg 2, books_count := 2,
       file_path := some output_file },
     [good1Row, good2Row], by decide, by decide, by decide, by decide⟩⟩

/-- C5: the lenient fields never skip an item — for every rating class
token and availability text the extraction of an otherwise-valid page
succeeds, with `rating = rating_map.get(token, 0)` and the availability
count taken from the regular expression; concretely, token `"Three"`
gives rating 3, the unrecognized token `"Zero"` gives rating 0,
`"In stock (7 available)"` gives count 7 and `"In stock"` gives
count 0, with no error raised. -/
theorem lenient_rating_and_availability :
    (∀ tok avtext : String, ∃ b : Book,
      getBookDetails (fun _ => some (ratingDetail tok avtext)) detailUrl =
        .ok (some b) ∧
      b.rating = ratingVal tok ∧ b.avaliability = availCount avtext) ∧
    getBookDetails (fun _ => some (ratingDetail "Three" "In stock (7 available)"))
        detailUrl =
      .ok (some { title := "T", price := 5, rating := 3, avaliability := 7,
                  category := "Fiction",
                  image_url := "https://books.toscrape.com/img.jpg" }) ∧
    getBookDetails (fun _ => some (ratingDetail "Zero" "In stock")) detailUrl =
      .ok (some { title := "T", price := 5, rating := 0, avaliability := 0,
                  category := "Fiction",
                  image_url := "https://books.toscrape.com/img.jpg" }) := by
  refine ⟨fun tok avtext => ⟨_, rfl, rfl, rfl⟩, by decide, by decide⟩

/-- C6: the price is read from the price node, the pound signs stripped
and the result trimmed and parsed as a decimal, which becomes the
record's `price`; a non-numeric remainder raises `ValueError`, which is
caught per item (`return None`), so the item is skipped and the run
continues with the next item's record. -/
theorem malformed_price_skips_item (pgood pbad : String) (v : Rat)
    (hgood : parsePrice pgood = some v) (hbad : parsePrice pbad = none) :
    getBookDetails (priceFetch pgood pbad) (urljoin BASE_URL "good.html") =
      .ok (some (priceGoodBook v)) ∧
    getBookDetails (priceFetch pgood pbad) (urljoin BASE_URL "bad.html") =
      .ok none ∧
    scrape_all_books (priceFetch pgood pbad) 1 =
      some (.ok [priceGoodBook v]) := by
  have hfg : priceFetch pgood pbad (urljoin BASE_URL "good.html") =
      some (validDetail "Good" pgood) := rfl
  have hfb : priceFetch pgood pbad (urljoin BASE_URL "bad.html") =
      some (validDetail "Bad" pbad) := rfl
  have e1 : getBookDetails (priceFetch pgood pbad)
      (urljoin BASE_URL "good.html") = .ok (some (priceGoodBook v)) := by
    unfold getBookDetails getBookDetailsRaw
    rw [hfg]
    simp only [validDetail, mkDetail, hgood]
    rfl
  have e2 : getBookDetails (priceFetch pgood pbad)
      (urljoin BASE_URL "bad.html") = .ok none := by
    unfold getBookDetails getBookDetailsRaw
    rw [hfb]
    simp only [validDetail, mkDetail, hbad]
    rfl
  refine ⟨e1, e2, ?_⟩
  have hfl : priceFetch pgood pbad (urljoin BASE_URL "page-1.html") =
      some (mkListing ["bad.html", "good.html"] none) := rfl
  have hpb : pageBody (priceFetch pgood pbad)
      (mkListing ["bad.html", "good.html"] none) [] =
      ([priceGoodBook v], .ok none) := by
    unfold pageBody
    simp only [mkListing, List.map, processCards, mkCard, cardHref, e1, e2,
      nextUrl, Option.map]
    rfl
  unfold scrape_all_books
  rw [show (1 : Nat) = 0 + 1 from rfl]
  rw [scrapeLoop_fetch_ok (priceFetch pgood pbad) 0 _ [] [priceGoodBook v]
    (mkListing ["bad.html", "good.html"] none) none hfl hpb]
  exact scrapeLoop_stop _ 0 [priceGoodBook v]

/-- C6 witness: price text `"£5.00"` parses to 5; `"abc"` does not parse;
the malformed item is skipped and the run keeps the valid record. -/
theorem malformed_price_skips_item_witness :
    getBookDetails (priceFetch "£5.00" "abc") (urljoin BASE_URL "good.html") =
      .ok (some (priceGoodBook 5)) ∧
    getBookDetails (priceFetch "£5.00" "abc") (urljoin BASE_URL "bad.html") =
      .ok none ∧
    scrape_all_books (priceFetch "£5.00" "abc") 1 =
      some (.ok [priceGoodBook 5]) :=
  malformed_price_skips_item "£5.00" "abc" 5 (by decide) (by decide)

/-- C7: when page 1 yields records for all of its items and the page-2
listing fetch raises a transport error, the walk ends early and returns
exactly those records in their original order, with no error escaping. -/
theorem listing_fetch_failure_keeps_records (fetch : Fetcher)
    (hrefs : List String) (f : String → Book)
    (h1 : fetch (urljoin BASE_URL "page-1.html") =
      some (mkListing hrefs (some "page-2.html")))
    (h2 : fetch (urljoin BASE_URL "page-2.html") = none)
    (hitems : ∀ x ∈ hrefs,
      getBookDetails fetch (urljoin BASE_URL x) = .ok (some (f x))) :
    scrape_all_books fetch 2 = some (.ok (hrefs.map f)) := by
  have hpb : pageBody fetch (mkListing hrefs (some "page-2.html")) [] =
      (hrefs.map f, .ok (some (urljoin BASE_URL "page-2.html"))) := by
    unfold pageBody
    have hp : (mkListing hrefs (some "page-2.html")).product_pods =
        hrefs.map mkCard := rfl
    rw [hp, processCards_app fetch hrefs f [] hitems]
    simp only [List.nil_append]
    rfl
  unfold scrape_all_books
  rw [show (2 : Nat) = 1 + 1 from rfl]
  rw [scrapeLoop_fetch_ok fetch 1 _ [] (hrefs.map f)
    (mkListing hrefs (some "page-2.html"))
    (some (urljoin BASE_URL "page-2.html")) h1 hpb]
  rw [show (1 : Nat) = 0 + 1 from rfl]
  exact scrapeLoop_fetch_fail fetch 0 _ (hrefs.map f) h2

/-- C7 witness: a concrete run where page 1 has one valid item and the
page-2 fetch fails returns exactly that item's record. -/
theorem listing_fetch_failure_keeps_records_witness :
    scrape_all_books c7Fetch 2 = some (.ok [aBook]) :=
  listing_fetch_failure_keeps_records c7Fetch ["a.html"] (fun _ => aBook)
    (by decide) (by decide)
    (by
      intro x hx
      rw [List.mem_singleton] at hx
      subst hx
      decide)

/-- C8 (amended): with an empty accumulated record list, `execute`
returns the no-data dict (`success = false`, `books_count = 0`, no file
written) without raising and without invoking the assembly step; the
assembly step itself would raise on an empty input (see the
counterexample), so the guard in `execute` is what keeps the empty case
error-free. -/
theorem empty_scrape_returns_no_data (fetch : Fetcher) (fuel : Nat)
    (h : scrape_all_books fetch fuel = some (.ok [])) :
    executeRun fetch fuel =
      some (.ok ({ success := false, message := noDataMsg,
                   books_count := 0, file_path := none }, none)) := by
  unfold executeRun
  rw [h]

/-- C8 witness: a run whose first listing fetch fails accumulates
nothing and yields the no-data result. -/
theorem empty_scrape_returns_no_data_witness :
    executeRun (fun _ => none) 1 =
      some (.ok ({ success := false, message := noDataMsg,
                   books_count := 0, file_path := none }, none)) :=
  empty_scrape_returns_no_data (fun _ => none) 1 (by decide)

/-- C8 counterexample: the assembly step itself, applied to an empty
record sequence, raises (`pd.DataFrame([])` has no columns, so selecting
the schema columns is a `KeyError`) — it does not return an empty
dataset as claimed. -/
theorem assemble_empty_is_error : assemble [] = .error .keyError := rfl

/-- C9 (amended): only the legacy script's extractor records the
detail-page URL: every record it emits carries the URL it was fetched
from, under the key `book_url`. The application extractor's records have
no source-URL field at all (see the counterexample). -/
theorem script_records_source_url (fetch : Fetcher) (url : String)
    (b : ScriptBook) (h : scriptGetBookDetails fetch url = .ok (some b)) :
    b.book_url = url := by
  have hraw : scriptDetailsRaw fetch url = .ok b := by
    unfold scriptGetBookDetails at h
    split at h
    · rename_i b2 heq
      simp only [Except.ok.injEq, Option.some.injEq] at h
      rw [h] at heq
      exact heq
    · split at h <;> simp_all
  unfold scriptDetailsRaw at hraw
  repeat' split at hraw
  all_goals injection hraw
  all_goals rename_i hb
  all_goals subst hb
  all_goals rfl

/-- C9 witness: a concrete script-extractor record carries the URL it
was fetched from. -/
theorem script_records_source_url_witness : scriptBookT.book_url = detailUrl :=
  script_records_source_url (fun _ => some (validDetail "T" "£5.00"))
    detailUrl scriptBookT (by decide)

/-- C9 counterexample: a record emitted by the application extractor
`RunScraper._get_book_details` — the complete returned dict — has
exactly the six keys `title, price, rating, avaliability, category,
image_url`; neither `source_url` nor `book_url` is among them. -/
theorem app_record_has_no_source_url :
    getBookDetails (fun _ => some (validDetail "T" "£5.00")) detailUrl =
      .ok (some { title := "T", price := 5, rating := 3, avaliability := 7,
                  category := "Fiction",
                  image_url := "https://books.toscrape.com/img.jpg" }) ∧
    bookDictKeys.contains "source_url" = false ∧
    bookDictKeys.contains "book_url" = false := by decide

/-- C10: item links and the next-page link are resolved against the
constant `BASE_URL`, not against the listing page they appear on, while
image URLs are resolved against the record's own detail-page URL. In
`c10Fetch` the walk reaches a listing outside `/catalogue/`; its item
href `"y.html"` is fetched at the `BASE_URL`-resolved location (title
`"Real"`), not the page-relative decoy; the item href `"../d.html"`
lands outside `/catalogue/` and its image `"pic.jpg"` resolves against
that detail URL to `/pic.jpg` (not `/catalogue/pic.jpg`); and the next
href `"z.html"` is followed to the `BASE_URL`-resolved empty listing,
not the page-relative decoy listing that would contribute a third
record. -/
theorem links_resolved_against_base_url :
    scrape_all_books c10Fetch 4 = some (.ok [realBook, dBook]) := by decide

end Books

example :
    Books.scrape_all_books Books.scenarioFetch 3 =
      some (.ok [Books.good1Book, Books.good2Book]) := by decide

example :
    Books.getBookDetails (fun _ => some (Books.validDetail "T" "£5.00"))
        "https://books.toscrape.com/catalogue/x.html" =
      .ok (some
        { title := "T", price := 5, rating := 3, avaliability := 7,
          category := "Fiction",
          image_url := "https://books.toscrape.com/img.jpg" }) := by decide

example : Books.pyFloat "51.77" = some (mkRat 5177 100) := by decide
example : Books.pyFloat "-1.00" = some (-1 : Rat) := by decide
example : Books.pyFloat "abc" = none := by decide
example : Books.pyFloat "" = none := by decide
example : Books.pyFloat " 5. " = some 5 := by decide
example : Books.pyFloat "2e2" = some 200 := by decide
example : Books.parsePrice "£51.77" = some (mkRat 5177 100) := by decide
example : Books.availCount "In stock (7 available)" = 7 := by decide
example : Books.availCount "In stock" = 0 := by decide
example : Books.normSpace "  In   stock " = "In stock" := by decide
example :
    Books.urljoin "https://books.toscrape.com/catalogue/" "page-1.html" =
      "https://books.toscrape.com/catalogue/page-1.html" := by decide
example :
    Books.urljoin "https://books.toscrape.com/catalogue/" "../index.html" =
      "https://books.toscrape.com/index.html" := by decide
example :
    Books.urljoin "https://books.toscrape.com/catalogue/x.html" "../media/i.jpg" =
      "https://books.toscrape.com/media/i.jpg" := by decide
example : Books.urljoin "x.html" "i.jpg" = "i.jpg" := by decide
example : Books.hasScheme "i.jpg" = false := by decide
example : Books.absHttp "https://books.toscrape.com/catalogue/x.html" = true := by decide
